import Mathlib

/-!
# Verification of the spikesorters lifecycle and registry core

A shallow embedding of the `spikesorters` package core
(`spikesorters/basesorter.py`, `spikesorters/sorterlist.py`, and the
installation-path handling of `spikesorters/kilosort/kilosort.py`), with
theorems settling the specification claims about parameter handling, the
run lifecycle, result collection, directory layout and registry dispatch.

Python dictionaries are modelled as association lists over string keys
(`Dict`); Python object identity (needed for the mutation claims about
`default_params`) is modelled by an explicit heap of dict objects; the
temporal behaviour of `BaseSorter.run` is modelled as the trace of
setup/run invocation events it produces.
-/

set_option autoImplicit false

namespace SpikeSorters

/-- A Python value as it appears in the parameter dictionaries of this
package (numbers, booleans, strings, None). -/
inductive PyVal where
  | none
  | bool (b : Bool)
  | int (n : Int)
  | str (s : String)
deriving DecidableEq, Repr, Inhabited

/-- A Python `dict` with string keys, as an association list in insertion
order with no duplicate keys in well-formed states. -/
abbrev Dict := List (String × PyVal)

namespace Dict

/-- Python `d.keys()`. -/
def keys (d : Dict) : List String := d.map Prod.fst

/-- Python `d[k]` as an option: the value at the first entry for `k`. -/
def lookup : Dict → String → Option PyVal
  | [], _ => Option.none
  | (k0, v0) :: rest, k => if k0 = k then Option.some v0 else lookup rest k

/-- Python `d[k] = v`: replace the value of an existing entry in place, else append
a new entry (Python dict assignment semantics). -/
def setItem : Dict → String → PyVal → Dict
  | [], k, v => [(k, v)]
  | (k0, v0) :: rest, k, v =>
      if k0 = k then (k, v) :: rest else (k0, v0) :: setItem rest k v

/-- Python `d.update(us)`: assign every key/value pair of `us` in order. -/
def update (d : Dict) (us : List (String × PyVal)) : Dict :=
  us.foldl (fun acc kv => acc.setItem kv.1 kv.2) d

@[simp] theorem lookup_nil (k : String) : lookup [] k = Option.none := rfl

theorem lookup_setItem_self (d : Dict) (k : String) (v : PyVal) :
    (d.setItem k v).lookup k = Option.some v := by
  induction d with
  | nil => simp [setItem, lookup]
  | cons kv rest ih =>
      obtain ⟨k0, v0⟩ := kv
      by_cases h : k0 = k
      · simp [setItem, h, lookup]
      · simp [setItem, h, lookup, ih]

theorem lookup_setItem_ne (d : Dict) (k k2 : String) (v : PyVal) (h : k2 ≠ k) :
    (d.setItem k v).lookup k2 = d.lookup k2 := by
  induction d with
  | nil =>
      simp only [setItem, lookup]
      rw [if_neg (fun h2 => h h2.symm)]
  | cons kv rest ih =>
      obtain ⟨k0, v0⟩ := kv
      by_cases h0 : k0 = k
      · subst h0
        simp only [setItem, if_pos rfl, lookup]
        rw [if_neg (fun h2 => h h2.symm), if_neg (fun h2 => h h2.symm)]
      · simp only [setItem, if_neg h0, lookup]
        by_cases h2 : k0 = k2
        · rw [if_pos h2, if_pos h2]
        · rw [if_neg h2, if_neg h2, ih]

theorem mem_keys_setItem (d : Dict) (k k2 : String) (v : PyVal)
    (h : k2 ∈ (d.setItem k v).keys) : k2 ∈ d.keys ∨ k2 = k := by
  induction d with
  | nil =>
      simp only [setItem, keys, List.map_cons, List.map_nil, List.mem_singleton] at h
      exact Or.inr h
  | cons kv rest ih =>
      obtain ⟨k0, v0⟩ := kv
      by_cases h0 : k0 = k
      · simp only [setItem] at h
        rw [if_pos h0] at h
        simp only [keys, List.map_cons, List.mem_cons] at h
        simp only [keys, List.map_cons, List.mem_cons]
        rcases h with h | h
        · exact Or.inr h
        · exact Or.inl (Or.inr h)
      · simp only [setItem] at h
        rw [if_neg h0] at h
        simp only [keys, List.map_cons, List.mem_cons] at h
        simp only [keys, List.map_cons, List.mem_cons]
        rcases h with h | h
        · exact Or.inl (Or.inl h)
        · rcases ih h with h3 | h3
          · exact Or.inl (Or.inr h3)
          · exact Or.inr h3

theorem mem_keys_update (d : Dict) (us : List (String × PyVal)) (k : String)
    (h : k ∈ (d.update us).keys) : k ∈ d.keys ∨ k ∈ us.map Prod.fst := by
  induction us generalizing d with
  | nil => exact Or.inl h
  | cons u rest ih =>
      rcases ih (d.setItem u.1 u.2) h with h2 | h2
      · rcases mem_keys_setItem d u.1 k u.2 h2 with h3 | h3
        · exact Or.inl h3
        · exact Or.inr (by simp [h3])
      · exact Or.inr (by simp [h2])

theorem lookup_update_of_not_mem (d : Dict) (us : List (String × PyVal))
    (k : String) (h : k ∉ us.map Prod.fst) :
    (d.update us).lookup k = d.lookup k := by
  induction us generalizing d with
  | nil => rfl
  | cons u rest ih =>
      have hne : k ≠ u.1 := by
        intro he
        exact h (by simp [he])
      have hrest : k ∉ rest.map Prod.fst := by
        intro hm
        exact h (by simp [hm])
      calc (d.update (u :: rest)).lookup k
          = ((d.setItem u.1 u.2).update rest).lookup k := rfl
        _ = (d.setItem u.1 u.2).lookup k := ih _ hrest
        _ = d.lookup k := lookup_setItem_ne d u.1 k u.2 hne

theorem lookup_update_of_mem (d : Dict) (us : List (String × PyVal))
    (k : String) (v : PyVal) (hnd : (us.map Prod.fst).Nodup)
    (hmem : (k, v) ∈ us) : (d.update us).lookup k = Option.some v := by
  induction us generalizing d with
  | nil => cases hmem
  | cons u rest ih =>
      simp only [List.map_cons, List.nodup_cons] at hnd
      rcases List.mem_cons.mp hmem with h | h
      · have hk : k = u.1 := by rw [← h]
        have hnotin : k ∉ rest.map Prod.fst := hk ▸ hnd.1
        calc (d.update (u :: rest)).lookup k
            = ((d.setItem u.1 u.2).update rest).lookup k := rfl
          _ = (d.setItem u.1 u.2).lookup k :=
              lookup_update_of_not_mem _ rest k hnotin
          _ = Option.some v := by
              rw [hk, lookup_setItem_self]
              rw [← h]
      · have goal2 : ((d.setItem u.1 u.2).update rest).lookup k = Option.some v :=
          ih (d.setItem u.1 u.2) hnd.2 h
        exact goal2

end Dict

namespace BaseSorter

/-- The classmethod `BaseSorter.default_params` (basesorter.py lines 82-84): returns
`copy.deepcopy(cls._default_params)`. As a value the deep copy equals the
declared defaults; the freshness of the copied object is modelled on the
heap by `default_params_obj` below. -/
def default_params (defaults : Dict) : Dict := defaults

/-- The method `BaseSorter.set_params` (basesorter.py lines 86-93): collect every
supplied key absent from `_default_params` into `bad_params`; if any,
raise `AttributeError` listing them (before touching `self.params`),
otherwise `self.params.update(params)`. The result is the value of
`self.params` after the call, paired with the payload of the raised
error, if any. -/
def set_params (defaults params : Dict) (updates : List (String × PyVal)) :
    Dict × Option (List String) :=
  let bad_params := (updates.map Prod.fst).filter
    (fun p => decide (p ∉ Dict.keys defaults))
  if bad_params.length > 0 then (params, Option.some bad_params)
  else (params.update updates, Option.none)

end BaseSorter

/-! ## Object heap

Python `dict` objects live on a heap of addresses; `copy.deepcopy` allocates
a fresh address holding an equal but disjoint value. This is needed to state
that `default_params` hands out an independent copy (C8). -/

/-- A heap of dict objects: `mem` gives the dict stored at each address,
`next` is the next fresh address (every live address is `< next`). -/
structure Heap where
  mem : Nat → Dict
  next : Nat

namespace Heap

/-- Allocate a fresh object holding `d`; returns its address. -/
def alloc (h : Heap) (d : Dict) : Nat × Heap :=
  (h.next, ⟨fun a => if a = h.next then d else h.mem a, h.next + 1⟩)

/-- Overwrite the object at address `a` with `d`. -/
def write (h : Heap) (a : Nat) (d : Dict) : Heap :=
  ⟨fun a2 => if a2 = a then d else h.mem a2, h.next⟩

@[simp] theorem mem_write_self (h : Heap) (a : Nat) (d : Dict) :
    (h.write a d).mem a = d := by
  simp [write]

theorem mem_write_ne (h : Heap) (a a2 : Nat) (d : Dict) (hne : a2 ≠ a) :
    (h.write a d).mem a2 = h.mem a2 := by
  simp [write, hne]

theorem mem_alloc_ne (h : Heap) (d : Dict) (a : Nat) (hne : a ≠ h.next) :
    (h.alloc d).2.mem a = h.mem a := by
  simp [alloc, hne]

end Heap

namespace BaseSorter

/-- The classmethod `BaseSorter.default_params` at the object level (basesorter.py lines
82-84): `copy.deepcopy(cls._default_params)` allocates a fresh dict object
whose value equals the one stored at the class-level `_default_params`
address `classAddr`; the fresh address is returned. -/
def default_params_obj (classAddr : Nat) (h : Heap) : Nat × Heap :=
  h.alloc (h.mem classAddr)

/-- A caller mutating the dict object at address `a`: perform a sequence of
item assignments `d[k] = v` through that reference. -/
def mutate_obj (a : Nat) (h : Heap) (us : List (String × PyVal)) : Heap :=
  us.foldl (fun acc kv => acc.write a ((acc.mem a).setItem kv.1 kv.2)) h

theorem mutate_obj_mem_ne (a a2 : Nat) (h : Heap) (us : List (String × PyVal))
    (hne : a2 ≠ a) : (mutate_obj a h us).mem a2 = h.mem a2 := by
  induction us generalizing h with
  | nil => rfl
  | cons u rest ih =>
      calc (mutate_obj a h (u :: rest)).mem a2
          = (mutate_obj a (h.write a ((h.mem a).setItem u.1 u.2)) rest).mem a2 := rfl
        _ = (h.write a ((h.mem a).setItem u.1 u.2)).mem a2 := ih _
        _ = h.mem a2 := Heap.mem_write_ne h a a2 _ hne

end BaseSorter

/-! ## The `run` lifecycle as an event trace

`BaseSorter.run` (basesorter.py lines 95-119) first loops over
`recording_list` calling `self._setup_recording(recording, folder)` for each
index in order, and only then starts the `_run` phase: sequentially in
partition order when `self.parallel` is false, else one `threading.Thread`
per partition, all started after the setup loop finished and joined before
`run` returns. We model the invocation trace: which adapter hook is entered
for which partition, in program order. In parallel mode the begin events of
the `_run` bodies may interleave in any order, which we model by
quantifying over an arbitrary permutation of the partition indices. -/

/-- An adapter invocation event observed during `BaseSorter.run`:
entry into `_setup_recording` or into `_run` for partition `i`. -/
inductive Event where
  | setup (i : Nat)
  | runPart (i : Nat)
deriving DecidableEq, Repr

/-- Trace of `BaseSorter.run` with `parallel=False` over `n` partitions:
the setup loop in partition order, then the `_run` loop in partition
order. -/
def run_trace_sequential (n : Nat) : List Event :=
  (List.range n).map Event.setup ++ (List.range n).map Event.runPart

/-- Trace of `BaseSorter.run` with `parallel=True` over `n` partitions:
the setup loop in partition order runs to completion on the calling thread;
the threads started afterwards enter their `_run` bodies in some
scheduler-dependent order `order` (an arbitrary permutation of the
partition indices, constrained by `run_trace_parallel_admissible`). -/
def run_trace_parallel (n : Nat) (order : List Nat) : List Event :=
  (List.range n).map Event.setup ++ order.map Event.runPart

/-- Admissible schedules: one thread per partition, each entering `_run`
exactly once, in any order. -/
def run_trace_parallel_admissible (n : Nat) (order : List Nat) : Prop :=
  order.Perm (List.range n)

/-! ## Recordings, sorting results and `get_result` -/

/-- The slice of the external RecordingExtractor collaborator that
`BaseSorter.get_result` consumes: channel ids, per-channel properties
(`get_channel_property`), and the sampling frequency. -/
structure Recording where
  channel_ids : List Nat
  channel_props : Nat → String → PyVal
  sampling_frequency : PyVal
deriving Inhabited

/-- The slice of the external SortingExtractor collaborator that the
lifecycle consumes and produces: unit ids (`get_unit_ids`), per-unit
property dicts (`get_unit_property` / `set_unit_property`), and the
stampable sampling frequency. -/
structure SortingRes where
  unit_ids : List Nat
  props : Nat → Dict
  freq : Option PyVal
deriving Inhabited

/-- Python `sorting.set_unit_property(u, k, v)`. -/
def set_unit_property (s : SortingRes) (u : Nat) (k : String) (v : PyVal) :
    SortingRes :=
  { s with props := fun u2 => if u2 = u then (s.props u2).setItem k v else s.props u2 }

/-- Python `recording.get_channel_property(recording.get_channel_ids()[0], "group")`
(basesorter.py line 153); the recordings involved have at least one
channel, so the first channel id is read with a default of `0`. -/
def first_channel_group (r : Recording) : PyVal :=
  r.channel_props (r.channel_ids.headD 0) "group"

/-- The tagging loop of basesorter.py lines 155-156:
`for unit in sorting.get_unit_ids(): sorting.set_unit_property(unit, "group", g)`. -/
def tag_units (s : SortingRes) (g : PyVal) : SortingRes :=
  s.unit_ids.foldl (fun acc u => set_unit_property acc u "group" g) s

/-- Modelled from the spec: `spikeextractors.MultiSortingExtractor` is an
external collaborator (spec section 6: "support for being merged from
several result objects into one (union of units, tags preserved)"); the
merged object exposes the concatenation of the member sortings' units, a
unit's properties being those it carries in the member that contains it
(unambiguous when unit ids do not collide across members). -/
def MultiSortingExtractor (sortings : List SortingRes) : SortingRes :=
  { unit_ids := sortings.flatMap SortingRes.unit_ids
  , props := fun u =>
      match sortings.find? (fun s => s.unit_ids.contains u) with
      | Option.some s => s.props u
      | Option.none => []
  , freq := Option.none }

/-- Python `sorting.set_sampling_frequency(f)` on the dynamically typed value held
in `sorting` (basesorter.py line 168): attribute access on `None` raises
`AttributeError`; on a result object it stamps the frequency. -/
def set_sampling_frequency (s : Option SortingRes) (f : PyVal) :
    Except String SortingRes :=
  match s with
  | Option.none =>
      Except.error "AttributeError: NoneType object has no attribute set_sampling_frequency"
  | Option.some s2 => Except.ok { s2 with freq := Option.some f }

/-- The method `BaseSorter.get_result_list` (basesorter.py lines 140-145): one parsed
result per partition, in partition order, obtained from the Adapter's
static output-folder parser. -/
def get_result_list (parser : List String → Option SortingRes)
    (output_folders : List (List String)) : List (Option SortingRes) :=
  output_folders.map parser

/-- One iteration of the loop in basesorter.py lines 152-156 for the
partition holding recording `rs.1` and parsed result `rs.2`: the group is
read from the recording's first channel; a null result is left null, a
result object has every unit tagged with that group. -/
def tag_entry (rs : Recording × Option SortingRes) : Option SortingRes :=
  match rs.2 with
  | Option.none => Option.none
  | Option.some s => Option.some (tag_units s (first_channel_group rs.1))

/-- The method `BaseSorter.get_result` (basesorter.py lines 147-169), taking the
per-partition parsed results (the value of `self.get_result_list()`) as
input. With a single partition the first entry is taken directly;
otherwise every non-null entry is tagged with its partition's group and the
non-null entries are merged (Python's `enumerate(sorting_list)` with
`self.recording_list[i]` subscripting is the traversal of
`recording_list.zip sorting_list`, the two lists having one entry per
partition by construction). The chosen value is then stamped with the
first partition recording's sampling frequency and returned; the
`delete_folders` directory removal is a filesystem effect and is elided. -/
def get_result (recording_list : List Recording)
    (sorting_list : List (Option SortingRes)) : Except String SortingRes :=
  let sorting : Option SortingRes :=
    if sorting_list.length = 1 then sorting_list.headD Option.none
    else
      let tagged := (recording_list.zip sorting_list).map tag_entry
      Option.some (MultiSortingExtractor (tagged.filterMap id))
  set_sampling_frequency sorting ((recording_list.headD default).sampling_frequency)

/-! ## Working-directory layout chosen by `BaseSorter.__init__` -/

/-- The folder layout of `BaseSorter.__init__` (basesorter.py lines 59-79).
Paths are modelled as segment lists, `p / s` being `p ++ [s]`. With no
grouping property the single partition gets the base output folder; with a
grouping property, `n_group` is the number of sub-extractors returned by
`recording.get_sub_extractors_by_property`, and the partitions get the
numbered subfolders `0..n_group-1` when `n_group > 1`, else the single
subfolder `0`. The `tmp_<name>` default folder, `.absolute()` and
`os.makedirs` are filesystem concerns and are elided. -/
def init_output_folders (output_folder : List String)
    (grouping_property : Option String) (n_group : Nat) : List (List String) :=
  match grouping_property with
  | Option.none => [output_folder]
  | Option.some _ =>
      if n_group > 1 then
        (List.range n_group).map (fun i => output_folder ++ [toString i])
      else [output_folder ++ [toString 0]]

/-! ## Sorter registry and dispatch (sorterlist.py) -/

/-- A sorter Adapter class as the registry sees it: its `sorter_name` and
its class-level `installed` flag at a given moment. Record equality models
Python class-object identity for the `in sorter_full_list` check. -/
structure SorterClassT where
  sorter_name : String
  installed : Bool
deriving DecidableEq, Repr, Inhabited

/-- sorterlist.py line 23: `{s.sorter_name: s for s in sorter_full_list}` —
a later registration with the same name overwrites an earlier one. -/
def sorter_dict (sorter_full_list : List SorterClassT) (n : String) :
    Option SorterClassT :=
  sorter_full_list.reverse.find? (fun s => s.sorter_name == n)

/-- sorterlist.py line 25: `[s for s in sorter_full_list if s.installed]`,
evaluated once at module import time against the `installed` flags the
classes carry at that moment. -/
def installed_sorter_list (sorter_full_list : List SorterClassT) :
    List SorterClassT :=
  sorter_full_list.filter (fun s => s.installed)

/-- Python `sorted()` on a list of strings: ascending lexicographic. -/
def pySorted (l : List String) : List String := l.insertionSort (· ≤ ·)

/-- The function `installed_sorters` (sorterlist.py lines 66-70): the names of the
module-level `installed_sorter_list`, sorted. Its argument is the registry
snapshot from module import time, since that is when line 25 ran. -/
def installed_sorters (load_list : List SorterClassT) : List String :=
  pySorted ((installed_sorter_list load_list).map SorterClassT.sorter_name)

/-- The spec's words for `installed()` ("recomputed on each call", reflecting
dynamic installation-path changes): filter the registry by the classes'
current `installed` flags at call time. Stated for comparison with
`installed_sorters`. -/
def installed_sorters_spec (current_list : List SorterClassT) : List String :=
  pySorted ((current_list.filter (fun s => s.installed)).map SorterClassT.sorter_name)

/-- The helper `check_if_installed` (kilosort/kilosort.py lines 13-25): no configured
path means not installed; otherwise the configured directory is probed for
the `preprocessData.m` marker file. The whole filesystem side — the
quote-stripping and `.absolute()` normalization of the configured string
followed by `(Path(p) / "preprocessData.m").is_file()` — is the abstract
probe `marker_file_at`. -/
def check_if_installed (marker_file_at : String → Bool)
    (kilosort_path : Option String) : Bool :=
  match kilosort_path with
  | Option.none => false
  | Option.some p => marker_file_at p

/-- The class-level mutable state of KilosortSorter: its configured path and
`installed` flag. -/
structure KilosortClassState where
  kilosort_path : Option String
  installed : Bool
deriving Repr

/-- The static method `KilosortSorter.set_kilosort_path` (kilosort/kilosort.py lines 57-65):
store the path on the class and recompute the class-level `installed` flag
from the filesystem probe (the `KILOSORT_PATH` environment-variable export
is an OS side effect and is elided). -/
def set_kilosort_path (marker_file_at : String → Bool) (p : String)
    (_st : KilosortClassState) : KilosortClassState :=
  { kilosort_path := Option.some p
  , installed := check_if_installed marker_file_at (Option.some p) }

/-- An argument to `run_sorter` / `get_default_params`: a tool name or an
Adapter class. -/
inductive DispatchArg where
  | name (s : String)
  | cls (c : SorterClassT)
deriving DecidableEq, Repr

/-- The Python exceptions that the dispatch code can raise. -/
inductive PyError where
  | keyError (k : String)
  | valueError (msg : String)
deriving DecidableEq, Repr

/-- The shared resolution step of `run_sorter` (sorterlist.py lines 43-48)
and `get_default_params` (lines 88-93): a string argument is looked up via
`sorter_dict[name]` (an absent name raises `KeyError` from the subscript);
any other argument is checked by identity against `sorter_full_list`, and
failing that raises `ValueError("Unknown sorter")`. -/
def resolve_sorter (sorter_full_list : List SorterClassT) (arg : DispatchArg) :
    Except PyError SorterClassT :=
  match arg with
  | DispatchArg.name s =>
      match sorter_dict sorter_full_list s with
      | Option.some c => Except.ok c
      | Option.none => Except.error (PyError.keyError s)
  | DispatchArg.cls c =>
      if c ∈ sorter_full_list then Except.ok c
      else Except.error (PyError.valueError "Unknown sorter")

/-- The function `get_default_params` (sorterlist.py lines 73-95): resolve the class,
then return `SorterClass.default_params()`, i.e. a copy of that class's
declared `_default_params` (given here by `class_defaults`). -/
def get_default_params (sorter_full_list : List SorterClassT)
    (class_defaults : SorterClassT → Dict) (arg : DispatchArg) :
    Except PyError Dict :=
  (resolve_sorter sorter_full_list arg).map
    (fun c => BaseSorter.default_params (class_defaults c))

/-- The function `run_sorter` (sorterlist.py lines 29-56): resolve the class, then drive
the full lifecycle (construction, `set_params`, `run`, `get_result`),
abstracted here as `lifecycle` since the claims about `run_sorter` concern
dispatch; a resolution failure propagates before any lifecycle work. -/
def run_sorter {α : Type} (sorter_full_list : List SorterClassT)
    (lifecycle : SorterClassT → α) (arg : DispatchArg) : Except PyError α :=
  (resolve_sorter sorter_full_list arg).map lifecycle

/-! ## Claim theorems : parameter contract -/

/-- C2: `set_params` is atomic and reports all offending keys. If any
supplied key is absent from the Adapter's declared defaults' key set, the
call raises an error whose payload lists exactly the unknown keys — hence
every one of them, not just the first — and returns the active parameter
set completely unchanged: no subset of the supplied updates is applied. -/
theorem set_params_atomic (defaults params : Dict) (updates : List (String × PyVal))
    (hbad : ∃ k, k ∈ updates.map Prod.fst ∧ k ∉ Dict.keys defaults) :
    (BaseSorter.set_params defaults params updates).1 = params ∧
    ∃ bad, (BaseSorter.set_params defaults params updates).2 = Option.some bad ∧
      ∀ k, k ∈ bad ↔ (k ∈ updates.map Prod.fst ∧ k ∉ Dict.keys defaults) := by
  obtain ⟨k, hk, hnk⟩ := hbad
  have hkbad : k ∈ (updates.map Prod.fst).filter
      (fun p => decide (p ∉ Dict.keys defaults)) :=
    List.mem_filter.mpr ⟨hk, by simpa using hnk⟩
  have hpos : ((updates.map Prod.fst).filter
      (fun p => decide (p ∉ Dict.keys defaults))).length > 0 :=
    List.length_pos.mpr (List.ne_nil_of_mem hkbad)
  refine ⟨?_, ?_⟩
  · simp only [BaseSorter.set_params, if_pos hpos]
  · refine ⟨(updates.map Prod.fst).filter (fun p => decide (p ∉ Dict.keys defaults)),
      ?_, ?_⟩
    · simp only [BaseSorter.set_params, if_pos hpos]
    · intro k2
      simp [List.mem_filter]

/-- Witness for C2: defaults `{a, b}`, active params `{a:=1, b:=2}`, call
`set_params(a:=5, z:=7)`: the unknown key `z` exists, the parameter set is
returned unchanged and the error payload is characterized. -/
theorem set_params_atomic_witness :
    (BaseSorter.set_params [("a", PyVal.int 0), ("b", PyVal.int 2)]
        [("a", PyVal.int 1), ("b", PyVal.int 2)]
        [("a", PyVal.int 5), ("z", PyVal.int 7)]).1
      = [("a", PyVal.int 1), ("b", PyVal.int 2)] ∧
    ∃ bad, (BaseSorter.set_params [("a", PyVal.int 0), ("b", PyVal.int 2)]
        [("a", PyVal.int 1), ("b", PyVal.int 2)]
        [("a", PyVal.int 5), ("z", PyVal.int 7)]).2 = Option.some bad ∧
      ∀ k, k ∈ bad ↔
        (k ∈ ([("a", PyVal.int 5), ("z", PyVal.int 7)].map Prod.fst) ∧
          k ∉ Dict.keys [("a", PyVal.int 0), ("b", PyVal.int 2)]) :=
  set_params_atomic [("a", PyVal.int 0), ("b", PyVal.int 2)]
    [("a", PyVal.int 1), ("b", PyVal.int 2)]
    [("a", PyVal.int 5), ("z", PyVal.int 7)]
    ⟨"z", by decide, by decide⟩

/-- C9: the active parameter set's key set is always a subset of the
declared defaults' key set: it holds for the seed `default_params defaults`
installed by `__init__`, and any state satisfying it still satisfies it
after `set_params`, whether that call raised (leaving the state unchanged)
or succeeded (adding only validated keys). -/
theorem params_keys_subset (defaults params : Dict) (updates : List (String × PyVal))
    (hinv : ∀ k, k ∈ Dict.keys params → k ∈ Dict.keys defaults) :
    (∀ k, k ∈ Dict.keys (BaseSorter.default_params defaults) → k ∈ Dict.keys defaults) ∧
    (∀ k, k ∈ Dict.keys (BaseSorter.set_params defaults params updates).1 →
      k ∈ Dict.keys defaults) := by
  constructor
  · exact fun k hk => hk
  · intro k hk
    simp only [BaseSorter.set_params] at hk
    split at hk
    · exact hinv k hk
    · next hneg =>
        rcases Dict.mem_keys_update params updates k hk with h | h
        · exact hinv k h
        · have hlen0 : ((updates.map Prod.fst).filter
              (fun p => decide (p ∉ Dict.keys defaults))).length = 0 := by omega
          have hnil : (updates.map Prod.fst).filter
              (fun p => decide (p ∉ Dict.keys defaults)) = [] :=
            List.length_eq_zero.mp hlen0
          have hall := List.filter_eq_nil_iff.mp hnil
          have := hall k h
          simpa using this

/-- Witness for C9 at defaults `{a}` and params `{a:=3}` updated with
`a:=4`. -/
theorem params_keys_subset_witness :
    (∀ k, k ∈ Dict.keys (BaseSorter.default_params [("a", PyVal.int 0)]) →
      k ∈ Dict.keys [("a", PyVal.int 0)]) ∧
    (∀ k, k ∈ Dict.keys (BaseSorter.set_params [("a", PyVal.int 0)]
        [("a", PyVal.int 3)] [("a", PyVal.int 4)]).1 →
      k ∈ Dict.keys [("a", PyVal.int 0)]) :=
  params_keys_subset [("a", PyVal.int 0)] [("a", PyVal.int 3)]
    [("a", PyVal.int 4)] (by decide)

/-- C10: a successful `set_params` call (every supplied key declared in the
defaults) raises nothing, sets exactly the supplied keys to the supplied
values, and leaves the value of every other key of the active parameter
set unchanged. -/
theorem set_params_frame (defaults params : Dict) (updates : List (String × PyVal))
    (hok : ∀ k, k ∈ updates.map Prod.fst → k ∈ Dict.keys defaults)
    (hnd : (updates.map Prod.fst).Nodup) :
    (BaseSorter.set_params defaults params updates).2 = Option.none ∧
    (∀ kv, kv ∈ updates →
      Dict.lookup (BaseSorter.set_params defaults params updates).1 kv.1
        = Option.some kv.2) ∧
    (∀ k, k ∉ updates.map Prod.fst →
      Dict.lookup (BaseSorter.set_params defaults params updates).1 k
        = Dict.lookup params k) := by
  have hnil : (updates.map Prod.fst).filter
      (fun p => decide (p ∉ Dict.keys defaults)) = [] := by
    rw [List.filter_eq_nil_iff]
    intro a ha
    simpa using hok a ha
  have hres : BaseSorter.set_params defaults params updates
      = (params.update updates, Option.none) := by
    simp [BaseSorter.set_params, hnil]
    intro a x hm
    exact hok a (List.mem_map.mpr ⟨(a, x), hm, rfl⟩)
  refine ⟨by rw [hres], ?_, ?_⟩
  · intro kv hkv
    rw [hres]
    exact Dict.lookup_update_of_mem params updates kv.1 kv.2 hnd hkv
  · intro k hnmem
    rw [hres]
    exact Dict.lookup_update_of_not_mem params updates k hnmem

/-- Witness for C10 at defaults `{a, b}`, params `{a:=1, b:=2}`, updating
`a:=5`. -/
theorem set_params_frame_witness :
    (BaseSorter.set_params [("a", PyVal.int 0), ("b", PyVal.int 2)]
        [("a", PyVal.int 1), ("b", PyVal.int 2)] [("a", PyVal.int 5)]).2
      = Option.none ∧
    (∀ kv, kv ∈ [("a", PyVal.int 5)] →
      Dict.lookup (BaseSorter.set_params [("a", PyVal.int 0), ("b", PyVal.int 2)]
          [("a", PyVal.int 1), ("b", PyVal.int 2)] [("a", PyVal.int 5)]).1 kv.1
        = Option.some kv.2) ∧
    (∀ k, k ∉ [("a", PyVal.int 5)].map Prod.fst →
      Dict.lookup (BaseSorter.set_params [("a", PyVal.int 0), ("b", PyVal.int 2)]
          [("a", PyVal.int 1), ("b", PyVal.int 2)] [("a", PyVal.int 5)]).1 k
        = Dict.lookup [("a", PyVal.int 1), ("b", PyVal.int 2)] k) :=
  set_params_frame [("a", PyVal.int 0), ("b", PyVal.int 2)]
    [("a", PyVal.int 1), ("b", PyVal.int 2)] [("a", PyVal.int 5)]
    (by decide) (by decide)

/-! ## Claim theorems : copy freshness and run ordering -/

/-- C8: `default_params` (returned unchanged by the registry's
`get_default_params`) hands out a fresh, independent copy of the
class-level `_default_params` object: the returned address is a new one
holding the declared defaults value, and after any sequence of mutations
the caller applies through it, the class-level object still holds its
original value and a subsequent `default_params` call still returns the
originally declared defaults. -/
theorem default_params_fresh (classAddr : Nat) (h : Heap)
    (us : List (String × PyVal)) (hlive : classAddr < h.next) :
    (BaseSorter.default_params_obj classAddr h).1 ≠ classAddr ∧
    (BaseSorter.default_params_obj classAddr h).2.mem
        (BaseSorter.default_params_obj classAddr h).1 = h.mem classAddr ∧
    (BaseSorter.mutate_obj (BaseSorter.default_params_obj classAddr h).1
        (BaseSorter.default_params_obj classAddr h).2 us).mem classAddr
      = h.mem classAddr ∧
    (BaseSorter.default_params_obj classAddr
        (BaseSorter.mutate_obj (BaseSorter.default_params_obj classAddr h).1
          (BaseSorter.default_params_obj classAddr h).2 us)).2.mem
        (BaseSorter.default_params_obj classAddr
          (BaseSorter.mutate_obj (BaseSorter.default_params_obj classAddr h).1
            (BaseSorter.default_params_obj classAddr h).2 us)).1
      = h.mem classAddr := by
  have hne : classAddr ≠ h.next := Nat.ne_of_lt hlive
  have hmemc : (BaseSorter.default_params_obj classAddr h).2.mem classAddr
      = h.mem classAddr :=
    Heap.mem_alloc_ne h _ classAddr hne
  have h3 : (BaseSorter.mutate_obj (BaseSorter.default_params_obj classAddr h).1
      (BaseSorter.default_params_obj classAddr h).2 us).mem classAddr
      = h.mem classAddr := by
    have hfst : (BaseSorter.default_params_obj classAddr h).1 = h.next := rfl
    rw [hfst, BaseSorter.mutate_obj_mem_ne h.next classAddr _ us hne]
    exact hmemc
  refine ⟨fun hEq => hne hEq.symm, ?_, h3, ?_⟩
  · simp [BaseSorter.default_params_obj, Heap.alloc]
  · simp only [BaseSorter.default_params_obj, Heap.alloc]
    simpa using h3

/-- Witness for C8: a heap with the class defaults `{a:=1}` at address 0,
the caller mutating the returned copy with `a:=99`. -/
theorem default_params_fresh_witness :
    (0 : Nat) < (1 : Nat) ∧
    ((BaseSorter.default_params_obj 0 ⟨fun _ => [("a", PyVal.int 1)], 1⟩).1 ≠ 0 ∧
      (BaseSorter.default_params_obj 0 ⟨fun _ => [("a", PyVal.int 1)], 1⟩).2.mem
          (BaseSorter.default_params_obj 0 ⟨fun _ => [("a", PyVal.int 1)], 1⟩).1
        = (⟨fun _ => [("a", PyVal.int 1)], 1⟩ : Heap).mem 0 ∧
      (BaseSorter.mutate_obj
          (BaseSorter.default_params_obj 0 ⟨fun _ => [("a", PyVal.int 1)], 1⟩).1
          (BaseSorter.default_params_obj 0 ⟨fun _ => [("a", PyVal.int 1)], 1⟩).2
          [("a", PyVal.int 99)]).mem 0
        = (⟨fun _ => [("a", PyVal.int 1)], 1⟩ : Heap).mem 0 ∧
      (BaseSorter.default_params_obj 0
          (BaseSorter.mutate_obj
            (BaseSorter.default_params_obj 0 ⟨fun _ => [("a", PyVal.int 1)], 1⟩).1
            (BaseSorter.default_params_obj 0 ⟨fun _ => [("a", PyVal.int 1)], 1⟩).2
            [("a", PyVal.int 99)])).2.mem
          (BaseSorter.default_params_obj 0
            (BaseSorter.mutate_obj
              (BaseSorter.default_params_obj 0 ⟨fun _ => [("a", PyVal.int 1)], 1⟩).1
              (BaseSorter.default_params_obj 0 ⟨fun _ => [("a", PyVal.int 1)], 1⟩).2
              [("a", PyVal.int 99)])).1
        = (⟨fun _ => [("a", PyVal.int 1)], 1⟩ : Heap).mem 0) :=
  ⟨by decide,
    default_params_fresh 0 ⟨fun _ => [("a", PyVal.int 1)], 1⟩
      [("a", PyVal.int 99)] (by decide)⟩

/-- Positions `0..n-1` of both run traces hold the setup events in
partition order. -/
theorem getElem?_setup_block (n i : Nat) (tail : List Event) (hi : i < n) :
    ((List.range n).map Event.setup ++ tail)[i]? = Option.some (Event.setup i) := by
  rw [List.getElem?_append_left (by simpa using hi)]
  simp [List.getElem?_range, hi]

/-- C1: in both execution modes of `run`, `_setup_recording` is invoked for
all partitions in partition order (trace positions `0..n-1` are
`setup 0..setup (n-1)`), and every `_run` invocation sits at a position
`≥ n`, i.e. strictly after all setup invocations completed; in sequential
mode the `_run` invocations are additionally in partition order
(position `n + i` is `runPart i`), and in parallel mode every partition's
`_run` does occur in the trace. -/
theorem run_setup_before_run (n : Nat) (order : List Nat)
    (hadm : run_trace_parallel_admissible n order) :
    (∀ i, i < n → (run_trace_sequential n)[i]? = Option.some (Event.setup i) ∧
      (run_trace_parallel n order)[i]? = Option.some (Event.setup i)) ∧
    (∀ k j, (run_trace_sequential n)[k]? = Option.some (Event.runPart j) → n ≤ k) ∧
    (∀ k j, (run_trace_parallel n order)[k]? = Option.some (Event.runPart j) → n ≤ k) ∧
    (∀ i, i < n →
      (run_trace_sequential n)[n + i]? = Option.some (Event.runPart i)) ∧
    (∀ i, i < n → Event.runPart i ∈ run_trace_parallel n order) := by
  refine ⟨?_, ?_, ?_, ?_, ?_⟩
  · intro i hi
    exact ⟨getElem?_setup_block n i _ hi, getElem?_setup_block n i _ hi⟩
  · intro k j hk
    by_contra hlt
    unfold run_trace_sequential at hk
    rw [getElem?_setup_block n k _ (by omega)] at hk
    exact Event.noConfusion (Option.some.inj hk)
  · intro k j hk
    by_contra hlt
    unfold run_trace_parallel at hk
    rw [getElem?_setup_block n k _ (by omega)] at hk
    exact Event.noConfusion (Option.some.inj hk)
  · intro i hi
    unfold run_trace_sequential
    rw [List.getElem?_append_right (by simp)]
    simp [List.getElem?_range, hi]
  · intro i hi
    unfold run_trace_parallel
    refine List.mem_append_right _ (List.mem_map.mpr ⟨i, ?_, rfl⟩)
    exact hadm.mem_iff.mpr (List.mem_range.mpr hi)

/-- Witness for C1 with two partitions and the parallel schedule that
enters the second partition's `_run` first. -/
theorem run_setup_before_run_witness :
    run_trace_parallel_admissible 2 [1, 0] ∧
    ((∀ i, i < 2 → (run_trace_sequential 2)[i]? = Option.some (Event.setup i) ∧
      (run_trace_parallel 2 [1, 0])[i]? = Option.some (Event.setup i)) ∧
    (∀ k j, (run_trace_sequential 2)[k]? = Option.some (Event.runPart j) → 2 ≤ k) ∧
    (∀ k j, (run_trace_parallel 2 [1, 0])[k]? = Option.some (Event.runPart j) → 2 ≤ k) ∧
    (∀ i, i < 2 →
      (run_trace_sequential 2)[2 + i]? = Option.some (Event.runPart i)) ∧
    (∀ i, i < 2 → Event.runPart i ∈ run_trace_parallel 2 [1, 0])) :=
  ⟨by unfold run_trace_parallel_admissible; decide,
    run_setup_before_run 2 [1, 0] (by unfold run_trace_parallel_admissible; decide)⟩

/-! ## Claim theorems : directory layout -/

/-- C5 counterexample: with a grouping property that yields exactly one
group there is exactly one partition, yet its working directory is the
numbered subfolder `0` under the base output folder — not the base folder
itself, as the claim states. -/
theorem init_output_folders_single_group_counterexample :
    (init_output_folders ["tmp_kilosort"] (Option.some "group") 1).length = 1 ∧
    init_output_folders ["tmp_kilosort"] (Option.some "group") 1
      = [["tmp_kilosort", "0"]] ∧
    init_output_folders ["tmp_kilosort"] (Option.some "group") 1
      ≠ [["tmp_kilosort"]] := by
  refine ⟨rfl, rfl, by decide⟩

/-- C5 (amended): the single partition's working directory is the base
output folder exactly when no grouping-property key was given; when a key
is given, a numbered subfolder is used even if only one group results (the
single group gets subfolder `0`), and with more than one group the
partitions get subfolders `0..n-1` in partition order. -/
theorem init_output_folders_layout (base : List String) (gp : String)
    (n_group : Nat) (hmulti : 1 < n_group) :
    init_output_folders base Option.none n_group = [base] ∧
    init_output_folders base (Option.some gp) 1 = [base ++ ["0"]] ∧
    init_output_folders base (Option.some gp) n_group
      = (List.range n_group).map (fun i => base ++ [toString i]) := by
  refine ⟨rfl, rfl, ?_⟩
  simp [init_output_folders, hmulti]

/-- Witness for C5 (amended) at base folder `out` and two groups. -/
theorem init_output_folders_layout_witness :
    (1 : Nat) < 2 ∧
    (init_output_folders ["out"] Option.none 2 = [["out"]] ∧
    init_output_folders ["out"] (Option.some "group") 1 = [["out"] ++ ["0"]] ∧
    init_output_folders ["out"] (Option.some "group") 2
      = (List.range 2).map (fun i => ["out"] ++ [toString i])) :=
  ⟨by decide, init_output_folders_layout ["out"] "group" 2 (by decide)⟩

/-! ## Claim theorems : registry -/

/-- A one-entry registry as captured at module import time: the kilosort
Adapter reported itself not installed when sorterlist.py line 25 ran. -/
def demoLoadList : List SorterClassT :=
  [{ sorter_name := "kilosort", installed := false }]

/-- C6 counterexample: after module load, `set_kilosort_path` (with the
marker file present at the new path) flips the class-level `installed`
flag to `true`, so a listing recomputed at call time — which is what the
claim asserts — would return `["kilosort"]`; but `installed_sorters`
answers from the import-time `installed_sorter_list` and still returns
`[]`. -/
theorem installed_sorters_stale_counterexample :
    (set_kilosort_path (fun _ => true) "/opt/KiloSort"
        { kilosort_path := Option.none, installed := false }).installed = true ∧
    installed_sorters demoLoadList = [] ∧
    installed_sorters_spec
        [{ sorter_name := "kilosort",
           installed := (set_kilosort_path (fun _ => true) "/opt/KiloSort"
             { kilosort_path := Option.none, installed := false }).installed }]
      = ["kilosort"] ∧
    installed_sorters demoLoadList
      ≠ installed_sorters_spec
          [{ sorter_name := "kilosort",
             installed := (set_kilosort_path (fun _ => true) "/opt/KiloSort"
               { kilosort_path := Option.none, installed := false }).installed }] := by
  refine ⟨rfl, rfl, rfl, by decide⟩

/-- C6 (amended): `installed_sorters` returns, sorted lexicographically,
exactly the names of the Adapters whose `installed` flag was set in the
module-import snapshot of the registry; it is a function of that snapshot
alone, so installed-flag changes made after import (such as
`set_kilosort_path` recomputing the kilosort flag) are not reflected. -/
theorem installed_sorters_snapshot (load_list : List SorterClassT) :
    (installed_sorters load_list).Sorted (· ≤ ·) ∧
    ∀ n, n ∈ installed_sorters load_list ↔
      ∃ c, c ∈ load_list ∧ c.installed = true ∧ c.sorter_name = n := by
  constructor
  · exact List.sorted_insertionSort _ _
  · intro n
    unfold installed_sorters pySorted installed_sorter_list
    rw [(List.perm_insertionSort (· ≤ ·) _).mem_iff, List.mem_map]
    constructor
    · rintro ⟨c, hc, hname⟩
      have hc2 := List.mem_filter.mp hc
      exact ⟨c, hc2.1, by simpa using hc2.2, hname⟩
    · rintro ⟨c, hc, hinst, hname⟩
      exact ⟨c, List.mem_filter.mpr ⟨hc, by simpa using hinst⟩, hname⟩

/-- C7 counterexample: dispatch raises `KeyError` for an unknown name but
`ValueError("Unknown sorter")` for an unrecognized class — two different
errors, not the single unknown-sorter error of the claim. -/
theorem dispatch_two_errors_counterexample :
    resolve_sorter demoLoadList (DispatchArg.name "nosuchsorter")
      = Except.error (PyError.keyError "nosuchsorter") ∧
    resolve_sorter demoLoadList
        (DispatchArg.cls { sorter_name := "outsider", installed := true })
      = Except.error (PyError.valueError "Unknown sorter") ∧
    PyError.keyError "nosuchsorter" ≠ PyError.valueError "Unknown sorter" := by
  refine ⟨rfl, ?_, by simp⟩
  simp [resolve_sorter, demoLoadList]

/-- C7 (amended): dispatch still fails immediately on unknown arguments,
before any lifecycle work, but with two different errors: an unknown name
raises the name lookup's `KeyError`, while an unrecognized class raises
`ValueError("Unknown sorter")`; `run_sorter` and `get_default_params`
behave identically. -/
theorem dispatch_unknown_errors {α : Type} (l : List SorterClassT)
    (lifecycle : SorterClassT → α) (cd : SorterClassT → Dict)
    (s : String) (c : SorterClassT)
    (hs : sorter_dict l s = Option.none) (hc : c ∉ l) :
    run_sorter l lifecycle (DispatchArg.name s)
      = Except.error (PyError.keyError s) ∧
    run_sorter l lifecycle (DispatchArg.cls c)
      = Except.error (PyError.valueError "Unknown sorter") ∧
    get_default_params l cd (DispatchArg.name s)
      = Except.error (PyError.keyError s) ∧
    get_default_params l cd (DispatchArg.cls c)
      = Except.error (PyError.valueError "Unknown sorter") := by
  have h1 : resolve_sorter l (DispatchArg.name s)
      = Except.error (PyError.keyError s) := by
    simp [resolve_sorter, hs]
  have h2 : resolve_sorter l (DispatchArg.cls c)
      = Except.error (PyError.valueError "Unknown sorter") := by
    simp [resolve_sorter, hc]
  refine ⟨?_, ?_, ?_, ?_⟩ <;>
    simp only [run_sorter, get_default_params, h1, h2] <;> rfl

/-- Witness for C7 (amended) on the demo registry, with an absent name and
an unregistered class. -/
theorem dispatch_unknown_errors_witness :
    sorter_dict demoLoadList "unknown-name" = Option.none ∧
    ({ sorter_name := "outsider", installed := true } : SorterClassT) ∉ demoLoadList ∧
    (run_sorter demoLoadList (fun _ => (0 : Nat)) (DispatchArg.name "unknown-name")
      = Except.error (PyError.keyError "unknown-name") ∧
    run_sorter demoLoadList (fun _ => (0 : Nat))
        (DispatchArg.cls { sorter_name := "outsider", installed := true })
      = Except.error (PyError.valueError "Unknown sorter") ∧
    get_default_params demoLoadList (fun _ => []) (DispatchArg.name "unknown-name")
      = Except.error (PyError.keyError "unknown-name") ∧
    get_default_params demoLoadList (fun _ => [])
        (DispatchArg.cls { sorter_name := "outsider", installed := true })
      = Except.error (PyError.valueError "Unknown sorter")) :=
  ⟨rfl, by decide,
    dispatch_unknown_errors demoLoadList (fun _ => (0 : Nat)) (fun _ => [])
      "unknown-name" { sorter_name := "outsider", installed := true }
      rfl (by decide)⟩

/-! ## Supporting lemmas for the result-collection claims -/

theorem foldl_set_unit_property_unit_ids (g : PyVal) (l : List Nat)
    (acc : SortingRes) :
    (l.foldl (fun a x => set_unit_property a x "group" g) acc).unit_ids
      = acc.unit_ids := by
  induction l generalizing acc with
  | nil => rfl
  | cons x rest ih => exact (ih _).trans rfl

theorem foldl_set_unit_property_props_not_mem (g : PyVal) (l : List Nat)
    (acc : SortingRes) (u : Nat) (hu : u ∉ l) :
    (l.foldl (fun a x => set_unit_property a x "group" g) acc).props u
      = acc.props u := by
  induction l generalizing acc with
  | nil => rfl
  | cons x rest ih =>
      have hx : u ≠ x := fun he => hu (by simp [he])
      have hrest : u ∉ rest := fun hm => hu (by simp [hm])
      calc (((x :: rest).foldl (fun a x2 => set_unit_property a x2 "group" g) acc)).props u
          = ((rest.foldl (fun a x2 => set_unit_property a x2 "group" g)
              (set_unit_property acc x "group" g))).props u := rfl
        _ = (set_unit_property acc x "group" g).props u := ih _ hrest
        _ = acc.props u := by simp [set_unit_property, hx]

theorem foldl_set_unit_property_props_mem (g : PyVal) (l : List Nat)
    (acc : SortingRes) (u : Nat) (hu : u ∈ l) :
    (((l.foldl (fun a x => set_unit_property a x "group" g) acc)).props u).lookup "group"
      = Option.some g := by
  induction l generalizing acc with
  | nil => cases hu
  | cons x rest ih =>
      by_cases hm : u ∈ rest
      · exact ih _ hm
      · have hx : u = x := by
          rcases List.mem_cons.mp hu with h | h
          · exact h
          · exact absurd h hm
        subst hx
        have h1 : ((rest.foldl (fun a x2 => set_unit_property a x2 "group" g)
            (set_unit_property acc u "group" g))).props u
            = (set_unit_property acc u "group" g).props u :=
          foldl_set_unit_property_props_not_mem g rest _ u hm
        show ((rest.foldl (fun a x2 => set_unit_property a x2 "group" g)
            (set_unit_property acc u "group" g)).props u).lookup "group"
          = Option.some g
        rw [h1]
        simp [set_unit_property, Dict.lookup_setItem_self]

theorem foldl_set_unit_property_props_other (g : PyVal) (l : List Nat)
    (acc : SortingRes) (u : Nat) (k : String) (hk : k ≠ "group") :
    (((l.foldl (fun a x => set_unit_property a x "group" g) acc)).props u).lookup k
      = (acc.props u).lookup k := by
  induction l generalizing acc with
  | nil => rfl
  | cons x rest ih =>
      show ((rest.foldl (fun a x2 => set_unit_property a x2 "group" g)
          (set_unit_property acc x "group" g)).props u).lookup k
        = (acc.props u).lookup k
      rw [ih]
      by_cases hux : u = x
      · subst hux
        simp [set_unit_property, Dict.lookup_setItem_ne _ _ _ _ hk]
      · simp [set_unit_property, hux]

theorem tag_units_unit_ids (s : SortingRes) (g : PyVal) :
    (tag_units s g).unit_ids = s.unit_ids :=
  foldl_set_unit_property_unit_ids g s.unit_ids s

theorem tag_units_group (s : SortingRes) (g : PyVal) (u : Nat)
    (hu : u ∈ s.unit_ids) :
    ((tag_units s g).props u).lookup "group" = Option.some g :=
  foldl_set_unit_property_props_mem g s.unit_ids s u hu

theorem tag_units_other (s : SortingRes) (g : PyVal) (u : Nat) (k : String)
    (hk : k ≠ "group") :
    ((tag_units s g).props u).lookup k = (s.props u).lookup k :=
  foldl_set_unit_property_props_other g s.unit_ids s u k hk

/-- The merged object's property lookup is the `find?` over the member
sortings, by definition. -/
theorem MultiSortingExtractor_props_eq_find (L : List SortingRes) (u : Nat) :
    (MultiSortingExtractor L).props u
      = match L.find? (fun s2 => s2.unit_ids.contains u) with
        | Option.some s2 => s2.props u
        | Option.none => [] := rfl

/-- In a merge whose member sortings have globally duplicate-free unit ids,
a unit keeps the properties it carries in the member containing it. -/
theorem MultiSortingExtractor_props (L : List SortingRes) (s : SortingRes)
    (u : Nat) (hs : s ∈ L) (hu : u ∈ s.unit_ids)
    (hnd : (L.flatMap SortingRes.unit_ids).Nodup) :
    (MultiSortingExtractor L).props u = s.props u := by
  induction L with
  | nil => cases hs
  | cons hd tl ih =>
      rw [List.flatMap_cons] at hnd
      by_cases hmem : u ∈ hd.unit_ids
      · have hs_eq : s = hd := by
          rcases List.mem_cons.mp hs with h | h
          · exact h
          · exfalso
            have hu_tl : u ∈ tl.flatMap SortingRes.unit_ids :=
              List.mem_flatMap.mpr ⟨s, h, hu⟩
            exact List.disjoint_of_nodup_append hnd hmem hu_tl
        subst hs_eq
        have hfind : ((s :: tl).find? (fun s2 => s2.unit_ids.contains u))
            = Option.some s :=
          List.find?_cons_of_pos tl (by simpa using hmem)
        rw [MultiSortingExtractor_props_eq_find, hfind]
      · have hs_tl : s ∈ tl := by
          rcases List.mem_cons.mp hs with h | h
          · exact absurd (h ▸ hu) hmem
          · exact h
        have hskip : ((hd :: tl).find? (fun s2 => s2.unit_ids.contains u))
            = tl.find? (fun s2 => s2.unit_ids.contains u) :=
          List.find?_cons_of_neg tl (by simpa using hmem)
        have hres := ih hs_tl hnd.of_append_right
        rw [MultiSortingExtractor_props_eq_find, hskip,
          ← MultiSortingExtractor_props_eq_find]
        exact hres

/-- The merged unit ids are exactly those of the surviving (non-null)
per-partition results, tagging not changing any unit id. -/
theorem tagged_filterMap_unit_ids (rl : List Recording)
    (sl : List (Option SortingRes)) (hlen : rl.length = sl.length) :
    (((rl.zip sl).map tag_entry).filterMap id).flatMap SortingRes.unit_ids
      = (sl.filterMap id).flatMap SortingRes.unit_ids := by
  induction sl generalizing rl with
  | nil =>
      cases rl with
      | nil => rfl
      | cons r rrest => simp at hlen
  | cons o rest ih =>
      cases rl with
      | nil => simp at hlen
      | cons r rrest =>
          have hlen2 : rrest.length = rest.length := by simpa using hlen
          cases o with
          | none => simpa [tag_entry] using ih rrest hlen2
          | some s =>
              simp only [List.zip_cons_cons, List.map_cons, tag_entry,
                List.filterMap_cons, id, List.flatMap_cons, tag_units_unit_ids]
              rw [ih rrest hlen2]

/-- The tagged result of the partition at index `i` is one of the merged
member sortings. -/
theorem tag_entry_mem (rl : List Recording) (sl : List (Option SortingRes))
    (i : Nat) (s : SortingRes) (hlen : rl.length = sl.length)
    (hi : sl[i]? = Option.some (Option.some s)) :
    tag_units s (first_channel_group (rl.getD i default))
      ∈ ((rl.zip sl).map tag_entry).filterMap id := by
  induction sl generalizing rl i with
  | nil => simp at hi
  | cons o rest ih =>
      cases rl with
      | nil => simp at hlen
      | cons r rrest =>
          have hlen2 : rrest.length = rest.length := by simpa using hlen
          cases i with
          | zero =>
              have ho : o = Option.some s := by simpa using hi
              subst ho
              simp [tag_entry]
          | succ j =>
              have hj : rest[j]? = Option.some (Option.some s) := by simpa using hi
              have hmem := ih rrest j hlen2 hj
              cases o with
              | none => simpa [tag_entry] using hmem
              | some s2 =>
                  simp only [List.zip_cons_cons, List.map_cons, tag_entry,
                    List.filterMap_cons, id, List.getD_cons_succ]
                  exact List.mem_cons_of_mem _ hmem

/-! ## Claim theorems : result collection -/

/-- C4 (amended): for a run with exactly one partition, `get_result` takes
that partition's parsed result object directly — no group tag is attached
and no merge is performed — returning it with only the partition
recording's sampling frequency stamped on it; but when the output-folder
parser returned null for the partition, the frequency stamping on `None`
raises `AttributeError`, so the null is not returned (propagated) to the
caller. -/
theorem get_result_single (r : Recording) (o : Option SortingRes) :
    (∀ s, o = Option.some s →
      get_result [r] [o]
        = Except.ok { s with freq := Option.some r.sampling_frequency }) ∧
    (o = Option.none → ∃ msg, get_result [r] [o] = Except.error msg) := by
  constructor
  · rintro s rfl
    rfl
  · rintro rfl
    exact ⟨_, rfl⟩

/-- A one-channel demo recording: channel `0` carrying group `7`, sampling
frequency 30000. -/
def demoRec : Recording :=
  { channel_ids := [0]
  , channel_props := fun _ k => if k = "group" then PyVal.int 7 else PyVal.none
  , sampling_frequency := PyVal.int 30000 }

/-- A demo sorting result with the single unit `1` carrying no properties. -/
def demoSortA : SortingRes :=
  { unit_ids := [1], props := fun _ => [], freq := Option.none }

/-- Witness for C4 (amended): a single partition whose parser produced a
result object; `get_result` returns it with only the frequency stamped. -/
theorem get_result_single_witness :
    get_result [demoRec] [Option.some demoSortA]
      = Except.ok { demoSortA with freq := Option.some demoRec.sampling_frequency } :=
  (get_result_single demoRec (Option.some demoSortA)).1 demoSortA rfl

/-- C4 counterexample: a single partition whose parsed result is null. The
claim says `get_result` returns (propagates) the null to the caller;
instead the code reaches `sorting.set_sampling_frequency` on `None` and
raises `AttributeError`, returning no value at all. -/
theorem get_result_single_null_counterexample :
    get_result [demoRec] [Option.none]
      = Except.error
          "AttributeError: NoneType object has no attribute set_sampling_frequency" ∧
    ∀ s, get_result [demoRec] [Option.none] ≠ Except.ok s := by
  constructor
  · rfl
  · intro s h
    rw [show get_result [demoRec] [Option.none]
        = Except.error
            "AttributeError: NoneType object has no attribute set_sampling_frequency"
      from rfl] at h
    exact Except.noConfusion h

/-- C3: for a run with more than one partition, `get_result` drops the
partitions whose parsed result is null, tags every unit of each surviving
partition's result with that partition's group value (read from the first
channel of that partition's recording), and returns one combined result
whose unit ids are exactly the union (concatenation in partition order) of
the surviving partitions' unit ids, each unit carrying its partition's
group tag and all its other properties unchanged. Unit ids are assumed not
to collide across surviving partitions, so that "the union of units" is
well formed. -/
theorem get_result_multi (rl : List Recording) (sl : List (Option SortingRes))
    (hlen : rl.length = sl.length) (hmulti : 1 < sl.length)
    (hnd : ((sl.filterMap id).flatMap SortingRes.unit_ids).Nodup) :
    ∃ m, get_result rl sl = Except.ok m ∧
      m.unit_ids = (sl.filterMap id).flatMap SortingRes.unit_ids ∧
      ∀ i s, sl[i]? = Option.some (Option.some s) → ∀ u, u ∈ s.unit_ids →
        ((m.props u).lookup "group"
            = Option.some (first_channel_group (rl.getD i default)) ∧
         ∀ k, k ≠ "group" → (m.props u).lookup k = (s.props u).lookup k) := by
  have hne1 : ¬ sl.length = 1 := by omega
  refine ⟨{ MultiSortingExtractor (((rl.zip sl).map tag_entry).filterMap id) with
      freq := Option.some ((rl.headD default).sampling_frequency) }, ?_, ?_, ?_⟩
  · simp [get_result, hne1, set_sampling_frequency]
  · show (MultiSortingExtractor (((rl.zip sl).map tag_entry).filterMap id)).unit_ids
      = (sl.filterMap id).flatMap SortingRes.unit_ids
    exact tagged_filterMap_unit_ids rl sl hlen
  · intro i s hi u hu
    have hmem := tag_entry_mem rl sl i s hlen hi
    have hu_t : u ∈ (tag_units s (first_channel_group (rl.getD i default))).unit_ids := by
      rw [tag_units_unit_ids]
      exact hu
    have hnd_t : ((((rl.zip sl).map tag_entry).filterMap id).flatMap
        SortingRes.unit_ids).Nodup := by
      rw [tagged_filterMap_unit_ids rl sl hlen]
      exact hnd
    have hprops : (MultiSortingExtractor
        (((rl.zip sl).map tag_entry).filterMap id)).props u
        = (tag_units s (first_channel_group (rl.getD i default))).props u :=
      MultiSortingExtractor_props _ _ u hmem hu_t hnd_t
    constructor
    · show ((MultiSortingExtractor
          (((rl.zip sl).map tag_entry).filterMap id)).props u).lookup "group"
        = Option.some (first_channel_group (rl.getD i default))
      rw [hprops]
      exact tag_units_group s _ u hu
    · intro k hk
      show ((MultiSortingExtractor
          (((rl.zip sl).map tag_entry).filterMap id)).props u).lookup k
        = (s.props u).lookup k
      rw [hprops]
      exact tag_units_other s _ u k hk

/-- A second demo recording: channel `2` carrying group `8`. -/
def demoRecB : Recording :=
  { channel_ids := [2]
  , channel_props := fun _ k => if k = "group" then PyVal.int 8 else PyVal.none
  , sampling_frequency := PyVal.int 30000 }

/-- A third demo recording: channel `3` carrying group `9`. -/
def demoRecC : Recording :=
  { channel_ids := [3]
  , channel_props := fun _ k => if k = "group" then PyVal.int 9 else PyVal.none
  , sampling_frequency := PyVal.int 30000 }

/-- A demo sorting result with the single unit `2` carrying no properties. -/
def demoSortC : SortingRes :=
  { unit_ids := [2], props := fun _ => [], freq := Option.none }

/-- Witness for C3 on the spec's own example shape
`[ResultA, null, ResultC]`: three partitions, the middle one null. -/
theorem get_result_multi_witness :
    ([demoRec, demoRecB, demoRecC].length
        = [Option.some demoSortA, Option.none, Option.some demoSortC].length) ∧
    1 < [Option.some demoSortA, Option.none, Option.some demoSortC].length ∧
    ((([Option.some demoSortA, Option.none,
        Option.some demoSortC].filterMap id).flatMap SortingRes.unit_ids).Nodup) ∧
    (∃ m, get_result [demoRec, demoRecB, demoRecC]
          [Option.some demoSortA, Option.none, Option.some demoSortC]
        = Except.ok m ∧
      m.unit_ids = ([Option.some demoSortA, Option.none,
          Option.some demoSortC].filterMap id).flatMap SortingRes.unit_ids ∧
      ∀ i s, [Option.some demoSortA, Option.none,
          Option.some demoSortC][i]? = Option.some (Option.some s) →
        ∀ u, u ∈ s.unit_ids →
        ((m.props u).lookup "group"
            = Option.some (first_channel_group
                ([demoRec, demoRecB, demoRecC].getD i default)) ∧
         ∀ k, k ≠ "group" → (m.props u).lookup k = (s.props u).lookup k)) :=
  ⟨rfl, by decide, by decide,
    get_result_multi [demoRec, demoRecB, demoRecC]
      [Option.some demoSortA, Option.none, Option.some demoSortC]
      rfl (by decide) (by decide)⟩

end SpikeSorters
